import Mathlib

/-!
Verification of the injection-session resolution and dispatch engine of
input-remapper, against `src/inputremapper/injection/context.py`.

The data model follows the source: an event triple is `(type, code, value)`,
a chord key is a tuple of triples, a Mapping entry pairs a chord key with an
output `(output_string, target_uinput)`.  Collaborators that live in modules
outside `src/` (the macro classifier and compiler, the system symbol table,
`Key.get_permutations`, `parse_mapping`) are modelled from the spec.
-/

/-- An event triple `(event_type, event_code, event_value)`. -/
abbrev Triple : Type := Int × Int × Int

/-- A chord: a tuple of event triples, the last one being the trigger. -/
abbrev ChordKey : Type := List Triple

/-- A configured output: `(output_string, target_uinput)`, as in
`for key, output in self.mapping`, where `output[0]` is the symbol or macro
string and `output[1]` the target uinput name. -/
abbrev Output : Type := String × String

/-- Joystick purpose values. Modelled from the spec: each stick purpose is
one of the fixed enumerated set {none, mouse-motion, scroll-wheel,
directional-buttons} (the constants `NONE`, `MOUSE`, `WHEEL`, `BUTTONS`
imported from the config module, which is outside `src/`). -/
inductive Purpose : Type
  | none
  | mouse
  | wheel
  | buttons
deriving DecidableEq

/-- A compiled macro program handle. The macro program itself is an external
collaborator; only its identity matters here. -/
abbrev MacroProgram : Type := Nat

/-- A mapping handler, as kept in `Context._handlers`; only its identity
matters here, `handler.notify` is modelled by the handler value itself. -/
abbrev Handler : Type := Nat

/-- Modelled from the spec: the Mapping collaborator, which exposes an
iterable of `(chord, output)` entries and the scalar config lookups
`gamepad.joystick.left_purpose` / `gamepad.joystick.right_purpose`. -/
structure Mapping : Type where
  entries : List (ChordKey × Output)
  left_purpose : Purpose
  right_purpose : Purpose

/-- Modelled from the spec: the external collaborators used by table
construction, none of which is under `src/`: the syntactic macro check
`is_this_a_macro(output_string)`, the macro compiler
`parse(output_string, context) -> program | None`, and the system symbol
table `system_mapping.get(name) -> key_code | None`. -/
structure Collaborators : Type where
  macro_check : String → Bool
  compile : String → Option MacroProgram
  symbol_get : String → Option Int

/-- Modelled from the spec: `Key.get_permutations` (the Combination
Expander, in `inputremapper.key`, not under `src/`): for a non-empty chord
it returns one chord per permutation of the non-trigger triples, each with
the trigger triple kept in the last position; a chord of length 1 yields
only itself.  An empty chord is a caller contract violation; here it yields
no permutations. -/
def get_permutations (keys : ChordKey) : List ChordKey :=
  match keys.getLast? with
  | Option.none => []
  | Option.some trigger => keys.dropLast.permutations'.map (fun p => p ++ [trigger])

/-- The log events emitted by table construction in `context.py`:
`logger.debug("Parsing macros")`, `logger.debug("No macros configured")`,
`logger.error('Don\x27t know what "%s" is', output[0])`, and
`logger.error("Expected values to be -1 or 1 at this point: %s", keys)`. -/
inductive LogEntry : Type
  | debugParsingMacros
  | debugNoMacrosConfigured
  | errorUnknownSymbol (symbol : String)
  | errorUnexpectedValue (keys : ChordKey)
deriving DecidableEq

/-- Whether a log entry was emitted at error level (`logger.error`) rather
than debug level (`logger.debug`). -/
def LogEntry.is_error : LogEntry → Bool
  | LogEntry.debugParsingMacros => false
  | LogEntry.debugNoMacrosConfigured => false
  | LogEntry.errorUnknownSymbol _ => true
  | LogEntry.errorUnexpectedValue _ => true

/-- Membership test of a chord in a table dict, `key in dict`: true iff the
chord was inserted at least once. -/
def table_contains {V : Type} (table : List (ChordKey × V)) (key : ChordKey) : Bool :=
  table.any (fun entry => decide (entry.1 = key))

/-- The accumulation loop of `Context._parse_macros`: for each mapping entry
whose output string passes the syntactic macro check, compile it; when
compilation yields `None` the entry is skipped (`continue`), otherwise one
table entry is inserted per permutation of the chord, valued
`(macro, output[1])`. -/
def parse_macros_loop (c : Collaborators) :
    List (ChordKey × Output) → List (ChordKey × (MacroProgram × String))
  | [] => []
  | (key, output) :: rest =>
    if c.macro_check output.1 then
      match c.compile output.1 with
      | Option.none => parse_macros_loop c rest
      | Option.some prog =>
        ((get_permutations key).map (fun p => (p, (prog, output.2))))
          ++ parse_macros_loop c rest
    else
      parse_macros_loop c rest

/-- Embedding of `Context._parse_macros`: the built macro table together
with its log: `logger.debug("Parsing macros")` on entry, and
`logger.debug("No macros configured")` when the finished table is empty. -/
def _parse_macros (c : Collaborators) (entries : List (ChordKey × Output)) :
    List (ChordKey × (MacroProgram × String)) × List LogEntry :=
  let macros := parse_macros_loop c entries
  (macros,
    LogEntry.debugParsingMacros ::
      (if macros.length = 0 then [LogEntry.debugNoMacrosConfigured] else []))

/-- The sanity check `permutation.keys[-1][-1] in [-1, 1]` from
`Context._map_keys_to_codes`: whether the last triple's event value is a
digital press/release value. -/
def last_value_ok (p : ChordKey) : Bool :=
  match p.getLast? with
  | Option.none => true
  | Option.some t => decide (t.2.2 = -1) || decide (t.2.2 = 1)

/-- Embedding of `Context._map_keys_to_codes`: for each non-macro entry,
resolve the output symbol through the system symbol table; on `None` log
`logger.error('Don\x27t know what "%s" is', ...)` and skip the entry
(`continue`); otherwise insert one table entry per permutation, valued
`(target_code, output[1])`, logging
`logger.error("Expected values to be -1 or 1 at this point: %s", ...)`
for each permutation whose last value fails the sanity check — the entry is
inserted regardless. -/
def _map_keys_to_codes (c : Collaborators) :
    List (ChordKey × Output) → List (ChordKey × (Int × String)) × List LogEntry
  | [] => ([], [])
  | (key, output) :: rest =>
    let r := _map_keys_to_codes c rest
    if c.macro_check output.1 then r
    else
      match c.symbol_get output.1 with
      | Option.none => (r.1, LogEntry.errorUnknownSymbol output.1 :: r.2)
      | Option.some target_code =>
        ((get_permutations key).map (fun p => (p, (target_code, output.2))) ++ r.1,
          ((get_permutations key).filter (fun p => !last_value_ok p)).map
              (fun p => LogEntry.errorUnexpectedValue p)
            ++ r.2)

/-- The direct table as it would be built without the value sanity check;
follows the spec's words: "the table contents are identical to what they
would be without the check". -/
def map_keys_to_codes_nocheck (c : Collaborators) :
    List (ChordKey × Output) → List (ChordKey × (Int × String))
  | [] => []
  | (key, output) :: rest =>
    let r := map_keys_to_codes_nocheck c rest
    if c.macro_check output.1 then r
    else
      match c.symbol_get output.1 with
      | Option.none => r
      | Option.some target_code =>
        (get_permutations key).map (fun p => (p, (target_code, output.2))) ++ r

/-- Python dict assignment `d[k] = v`: replaces in place when the key
exists, appends otherwise. -/
def dict_set {K V : Type} [DecidableEq K] (d : List (K × V)) (k : K) (v : V) :
    List (K × V) :=
  if d.any (fun p => decide (p.1 = k)) then
    d.map (fun p => if p.1 = k then (k, v) else p)
  else d ++ [(k, v)]

/-- Python dict lookup `d[k]` (as an Option). -/
def dict_get {K V : Type} [DecidableEq K] (d : List (K × V)) (k : K) : Option V :=
  (d.find? (fun p => decide (p.1 = k))).map (fun p => p.2)

/-- The slice `key[:2]` on a trigger triple: the dispatch key, discarding the
event_value component. -/
def dispatch_key (t : Triple) : Int × Int := (t.1, t.2.1)

/-- The callback `handler.notify`, modelled by the handler identity. -/
def notify (h : Handler) : Handler := h

/-- Embedding of `Context.update_callbacks`: for each `(key, handler_list)`
in `_handlers` (iterated in insertion order), `self.callbacks[key[:2]] = []`
and then each `handler.notify` is appended.  The keys of `_handlers` are
modelled from the spec as the chords' trigger triples. -/
def update_callbacks (handlers : List (Triple × List Handler)) :
    List ((Int × Int) × List Handler) :=
  handlers.foldl
    (fun cbs kh => dict_set cbs (dispatch_key kh.1) (kh.2.map notify)) []

/-- The Context aggregate, with one field per attribute that
`Context.__init__` touches; `macros` and `key_to_code` are `Option`s
because reading an unset Python attribute raises `AttributeError`. -/
structure Context : Type where
  mapping : Mapping
  left_purpose : Purpose
  right_purpose : Purpose
  last_btn_down_event : Option Triple
  last_btn_up_event : Option Triple
  callbacks : List ((Int × Int) × List Handler)
  handlers : List (Triple × List Handler)
  macros : Option (List (ChordKey × (MacroProgram × String)))
  key_to_code : Option (List (ChordKey × (Int × String)))

/-- Embedding of `Context.__init__`: stores the mapping, reads the joystick
purposes (`update_purposes`), initialises the scratch event fields, builds
`_handlers` through the external `parse_mapping` collaborator (modelled
from the spec as a function of the mapping) and fills `callbacks` via
`update_callbacks`.  The attributes `macros` and `key_to_code` are never
assigned — `_parse_macros` and `_map_keys_to_codes` are defined but never
invoked — so both fields are `Option.none`. -/
def Context.init (parse_mapping : Mapping → List (Triple × List Handler))
    (m : Mapping) : Context :=
  { mapping := m
    left_purpose := m.left_purpose
    right_purpose := m.right_purpose
    last_btn_down_event := Option.none
    last_btn_up_event := Option.none
    callbacks := update_callbacks (parse_mapping m)
    handlers := parse_mapping m
    macros := Option.none
    key_to_code := Option.none }

/-- The Python errors this embedding distinguishes. -/
inductive PyError : Type
  | attributeError
deriving DecidableEq

/-- Decidable equality of call results, so that concrete method calls can
be evaluated. -/
instance exceptDecEq {E A : Type} [DecidableEq E] [DecidableEq A] :
    DecidableEq (Except E A) := fun a b =>
  match a, b with
  | Except.error e1, Except.error e2 =>
    if h : e1 = e2 then Decidable.isTrue (by rw [h])
    else Decidable.isFalse (by intro he; cases he; exact h rfl)
  | Except.error _, Except.ok _ => Decidable.isFalse (by intro he; cases he)
  | Except.ok _, Except.error _ => Decidable.isFalse (by intro he; cases he)
  | Except.ok a1, Except.ok a2 =>
    if h : a1 = a2 then Decidable.isTrue (by rw [h])
    else Decidable.isFalse (by intro he; cases he; exact h rfl)

/-- Embedding of `Context.is_mapped`:
`return key in self.macros or key in self.key_to_code`, with Python's
evaluation order — reading an unset attribute raises `AttributeError` and
`or` short-circuits. -/
def Context.is_mapped (ctx : Context) (key : ChordKey) : Except PyError Bool :=
  match ctx.macros with
  | Option.none => Except.error PyError.attributeError
  | Option.some macros =>
    if table_contains macros key then Except.ok true
    else
      match ctx.key_to_code with
      | Option.none => Except.error PyError.attributeError
      | Option.some key_to_code => Except.ok (table_contains key_to_code key)

/-- Embedding of `Context.writes_keys`:
`return len(self.macros) > 0 and len(self.key_to_code) > 0`, with Python's
evaluation order — reading an unset attribute raises `AttributeError` and
`and` short-circuits. -/
def Context.writes_keys (ctx : Context) : Except PyError Bool :=
  match ctx.macros with
  | Option.none => Except.error PyError.attributeError
  | Option.some macros =>
    if macros.length > 0 then
      match ctx.key_to_code with
      | Option.none => Except.error PyError.attributeError
      | Option.some key_to_code => Except.ok (key_to_code.length > 0)
    else Except.ok false

/-- Embedding of `Context.maps_joystick`:
`(self.left_purpose, self.right_purpose) != (NONE, NONE)`. -/
def Context.maps_joystick (ctx : Context) : Bool :=
  decide ((ctx.left_purpose, ctx.right_purpose) ≠ (Purpose.none, Purpose.none))

/-- Embedding of `Context.joystick_as_mouse`:
`MOUSE in purposes or WHEEL in purposes`. -/
def Context.joystick_as_mouse (ctx : Context) : Bool :=
  let purposes := [ctx.left_purpose, ctx.right_purpose]
  purposes.any (fun p => decide (p = Purpose.mouse))
    || purposes.any (fun p => decide (p = Purpose.wheel))

/-- Embedding of `Context.joystick_as_dpad`:
`BUTTONS in purposes`. -/
def Context.joystick_as_dpad (ctx : Context) : Bool :=
  let purposes := [ctx.left_purpose, ctx.right_purpose]
  purposes.any (fun p => decide (p = Purpose.buttons))

/-- The body of `Context.is_mapped` applied to given tables. -/
def is_mapped_tables (macros : List (ChordKey × (MacroProgram × String)))
    (key_to_code : List (ChordKey × (Int × String))) (key : ChordKey) : Bool :=
  table_contains macros key || table_contains key_to_code key

/-- Whether a configured output resolves during table construction: a
macro-classified output must compile to a program, a direct output's symbol
must be found in the system symbol table. -/
def resolves (c : Collaborators) (output : Output) : Bool :=
  if c.macro_check output.1 then (c.compile output.1).isSome
  else (c.symbol_get output.1).isSome

/- Concrete fixtures used by witnesses and counterexamples. -/

/-- Concrete collaborators: the string "k(a)" is the only macro (it
compiles to program 0) and "a" the only known symbol (key code 30). -/
def c0 : Collaborators where
  macro_check := fun s => s == "k(a)"
  compile := fun s => if s == "k(a)" then Option.some 0 else Option.none
  symbol_get := fun s => if s == "a" then Option.some 30 else Option.none

/-- Concrete collaborators where "k()" is classified as a macro but
compiles to no program (an empty macro body). -/
def c1 : Collaborators where
  macro_check := fun s => s == "k()" || s == "k(a)"
  compile := fun s => if s == "k(a)" then Option.some 0 else Option.none
  symbol_get := fun s => if s == "a" then Option.some 30 else Option.none

/-- A three-key chord. -/
def chord3 : ChordKey := [(1, 30, 1), (1, 31, 1), (1, 32, 1)]

/-- A mapping with one unresolvable direct entry (symbol "qqq" unknown)
and one resolvable three-key direct entry. -/
def mC1 : Mapping where
  entries := [([(1, 30, 1)], ("qqq", "keyboard")),
              ([(1, 31, 1), (1, 32, 1), (1, 33, 1)], ("a", "keyboard"))]
  left_purpose := Purpose.none
  right_purpose := Purpose.none

/-- A context whose tables were built from `mC1` by the builder methods. -/
def ctxC1 : Context where
  mapping := mC1
  left_purpose := Purpose.none
  right_purpose := Purpose.none
  last_btn_down_event := Option.none
  last_btn_up_event := Option.none
  callbacks := []
  handlers := []
  macros := Option.some (_parse_macros c0 mC1.entries).1
  key_to_code := Option.some (_map_keys_to_codes c0 mC1.entries).1

/-- Two handler-dict keys that are permutations of each other with
different classifications: the first is a macro, the second a direct
mapping. -/
def mC5 : Mapping where
  entries := [([(1, 2, 1), (1, 3, 1), (1, 4, 1)], ("k(a)", "keyboard")),
              ([(1, 3, 1), (1, 2, 1), (1, 4, 1)], ("a", "keyboard"))]
  left_purpose := Purpose.none
  right_purpose := Purpose.none

/-- A mapping with a single resolvable direct entry. -/
def mDirect : Mapping where
  entries := [([(1, 30, 1)], ("a", "keyboard"))]
  left_purpose := Purpose.none
  right_purpose := Purpose.none

/-- An empty mapping configuring the left stick as mouse (spec scenario C). -/
def mJoy : Mapping where
  entries := []
  left_purpose := Purpose.mouse
  right_purpose := Purpose.none

/-- A handlers dict in which one physical key (type 1, code 30) appears as
a press trigger (value 1) for one chord and as a release trigger (value -1)
for another. -/
def handlersC3 : List (Triple × List Handler) := [((1, 30, 1), [7]), ((1, 30, -1), [8])]

/-- A context of a session with zero macros and one direct mapping. -/
def ctxC6 : Context where
  mapping := mDirect
  left_purpose := Purpose.none
  right_purpose := Purpose.none
  last_btn_down_event := Option.none
  last_btn_up_event := Option.none
  callbacks := []
  handlers := []
  macros := Option.some []
  key_to_code := Option.some [([(1, 30, 1)], (30, "keyboard"))]

/-- The context constructed from `mJoy` (left stick mouse, right none). -/
def ctxC7 : Context := Context.init (fun _ => []) mJoy

/-- A resolvable direct entry. -/
def entryGood : ChordKey × Output := ([(1, 31, 1)], ("a", "keyboard"))

/-- A direct entry whose output symbol is unknown to the symbol table. -/
def entryBad : ChordKey × Output := ([(1, 30, 1)], ("zzz", "keyboard"))

/-- A direct entry whose non-trigger value (5) is outside {-1, 1} while the
trigger value (1) is inside. -/
def entryC9cx : ChordKey × Output := ([(1, 30, 5), (1, 31, 1)], ("a", "keyboard"))

/-- A direct entry whose trigger value (0) is outside {-1, 1}. -/
def entryC9w : ChordKey × Output := ([(1, 31, 1), (1, 30, 0)], ("a", "keyboard"))

/-- A macro entry with an empty body: classified as a macro by `c1` but
compiling to no program. -/
def entryC10 : ChordKey × Output := ([(1, 30, 1)], ("k()", "keyboard"))

/- `get_permutations` basic facts -/

lemma get_permutations_of_ne_nil (keys : ChordKey) (h : keys ≠ []) :
    get_permutations keys
      = keys.dropLast.permutations'.map (fun p => p ++ [keys.getLast h]) := by
  unfold get_permutations
  rw [List.getLast?_eq_getLast_of_ne_nil h]

lemma mem_get_permutations (keys : ChordKey) (h : keys ≠ []) (p : ChordKey) :
    p ∈ get_permutations keys
      ↔ ∃ q, q.Perm keys.dropLast ∧ p = q ++ [keys.getLast h] := by
  rw [get_permutations_of_ne_nil keys h]
  simp only [List.mem_map, List.mem_permutations']
  constructor
  · rintro ⟨q, hq, rfl⟩
    exact ⟨q, hq, rfl⟩
  · rintro ⟨q, hq, rfl⟩
    exact ⟨q, hq, rfl⟩

lemma self_mem_get_permutations (keys : ChordKey) (h : keys ≠ []) :
    keys ∈ get_permutations keys := by
  rw [mem_get_permutations keys h]
  exact ⟨keys.dropLast, List.Perm.refl _, (List.dropLast_append_getLast h).symm⟩

lemma length_get_permutations (keys : ChordKey) (h : keys ≠ []) :
    (get_permutations keys).length = Nat.factorial (keys.length - 1) := by
  rw [get_permutations_of_ne_nil keys h, List.length_map,
    ← (List.permutations_perm_permutations' keys.dropLast).length_eq,
    List.length_permutations, List.length_dropLast]

/- Characterisation of the built tables. -/

lemma _parse_macros_fst (c : Collaborators) (entries : List (ChordKey × Output)) :
    (_parse_macros c entries).1 = parse_macros_loop c entries := rfl

lemma table_contains_append {V : Type} (t1 t2 : List (ChordKey × V)) (key : ChordKey) :
    table_contains (t1 ++ t2) key = (table_contains t1 key || table_contains t2 key) := by
  simp [table_contains, List.any_append]

lemma table_contains_map_fst {V : Type} (perms : List ChordKey) (f : ChordKey → V)
    (key : ChordKey) :
    table_contains (perms.map (fun p => (p, f p))) key = true ↔ key ∈ perms := by
  simp only [table_contains, List.any_eq_true, List.mem_map, decide_eq_true_eq]
  constructor
  · rintro ⟨entry, ⟨p, hp, rfl⟩, h⟩
    exact h ▸ hp
  · intro hk
    exact ⟨(key, f key), ⟨key, hk, rfl⟩, rfl⟩

lemma parse_macros_loop_contains (c : Collaborators)
    (entries : List (ChordKey × Output)) (key : ChordKey) :
    table_contains (parse_macros_loop c entries) key = true
      ↔ ∃ e ∈ entries, c.macro_check e.2.1 = true ∧ (c.compile e.2.1).isSome = true
          ∧ key ∈ get_permutations e.1 := by
  induction entries with
  | nil => simp [parse_macros_loop, table_contains]
  | cons e rest ih =>
    obtain ⟨k, output⟩ := e
    simp only [parse_macros_loop]
    by_cases hm : c.macro_check output.1 = true
    · simp only [hm, if_true]
      cases hc : c.compile output.1 with
      | none =>
        rw [ih]
        simp [hm, hc]
      | some prog =>
        rw [table_contains_append, Bool.or_eq_true,
          table_contains_map_fst (get_permutations k) (fun _ => (prog, output.2)) key, ih]
        simp [hm, hc]
    · rw [if_neg hm, ih]
      simp only [Bool.not_eq_true] at hm
      simp [hm]

lemma map_keys_contains (c : Collaborators)
    (entries : List (ChordKey × Output)) (key : ChordKey) :
    table_contains (_map_keys_to_codes c entries).1 key = true
      ↔ ∃ e ∈ entries, c.macro_check e.2.1 = false ∧ (c.symbol_get e.2.1).isSome = true
          ∧ key ∈ get_permutations e.1 := by
  induction entries with
  | nil => simp [_map_keys_to_codes, table_contains]
  | cons e rest ih =>
    obtain ⟨k, output⟩ := e
    simp only [_map_keys_to_codes]
    by_cases hm : c.macro_check output.1 = true
    · rw [if_pos hm, ih]
      simp [hm]
    · rw [if_neg hm]
      simp only [Bool.not_eq_true] at hm
      cases hs : c.symbol_get output.1 with
      | none =>
        rw [ih]
        simp [hm, hs]
      | some tc =>
        rw [table_contains_append, Bool.or_eq_true,
          table_contains_map_fst (get_permutations k) (fun _ => (tc, output.2)) key, ih]
        simp [hm, hs]

lemma map_keys_fst_eq_nocheck (c : Collaborators) (entries : List (ChordKey × Output)) :
    (_map_keys_to_codes c entries).1 = map_keys_to_codes_nocheck c entries := by
  induction entries with
  | nil => rfl
  | cons e rest ih =>
    obtain ⟨k, output⟩ := e
    simp only [_map_keys_to_codes, map_keys_to_codes_nocheck]
    by_cases hm : c.macro_check output.1 = true
    · rw [if_pos hm, if_pos hm, ih]
    · rw [if_neg hm, if_neg hm]
      cases hs : c.symbol_get output.1 with
      | none => simpa using ih
      | some tc => simp [ih]

lemma map_keys_mem_insert (c : Collaborators) (entries : List (ChordKey × Output))
    (e : ChordKey × Output) (he : e ∈ entries)
    (hm : c.macro_check e.2.1 = false) (tc : Int)
    (hs : c.symbol_get e.2.1 = Option.some tc)
    (p : ChordKey) (hp : p ∈ get_permutations e.1) :
    (p, (tc, e.2.2)) ∈ (_map_keys_to_codes c entries).1 := by
  induction entries with
  | nil => cases he
  | cons e0 rest ih =>
    obtain ⟨k, output⟩ := e0
    simp only [_map_keys_to_codes]
    rcases List.mem_cons.mp he with he0 | hrest
    · subst he0
      rw [if_neg (by simp [hm]), hs]
      exact List.mem_append_left _ (List.mem_map.mpr ⟨p, hp, rfl⟩)
    · by_cases hmk : c.macro_check output.1 = true
      · rw [if_pos hmk]
        exact ih hrest
      · rw [if_neg hmk]
        cases hsk : c.symbol_get output.1 with
        | none => exact ih hrest
        | some tck => exact List.mem_append_right _ (ih hrest)

lemma map_keys_value_error_logged (c : Collaborators)
    (entries : List (ChordKey × Output)) (e : ChordKey × Output) (he : e ∈ entries)
    (hm : c.macro_check e.2.1 = false) (tc : Int)
    (hs : c.symbol_get e.2.1 = Option.some tc)
    (p : ChordKey) (hp : p ∈ get_permutations e.1) (hv : last_value_ok p = false) :
    LogEntry.errorUnexpectedValue p ∈ (_map_keys_to_codes c entries).2 := by
  induction entries with
  | nil => cases he
  | cons e0 rest ih =>
    obtain ⟨k, output⟩ := e0
    simp only [_map_keys_to_codes]
    rcases List.mem_cons.mp he with he0 | hrest
    · subst he0
      rw [if_neg (by simp [hm]), hs]
      refine List.mem_append_left _ (List.mem_map.mpr ⟨p, ?_, rfl⟩)
      exact List.mem_filter.mpr ⟨hp, by simp [hv]⟩
    · by_cases hmk : c.macro_check output.1 = true
      · rw [if_pos hmk]
        exact ih hrest
      · rw [if_neg hmk]
        cases hsk : c.symbol_get output.1 with
        | none => exact List.mem_cons_of_mem _ (ih hrest)
        | some tck => exact List.mem_append_right _ (ih hrest)

lemma map_keys_skip_unknown (c : Collaborators)
    (m1 m2 : List (ChordKey × Output)) (key : ChordKey) (output : Output)
    (hm : c.macro_check output.1 = false)
    (hs : c.symbol_get output.1 = Option.none) :
    (_map_keys_to_codes c (m1 ++ (key, output) :: m2)).1
      = (_map_keys_to_codes c (m1 ++ m2)).1 := by
  induction m1 with
  | nil =>
    simp only [List.nil_append, _map_keys_to_codes]
    rw [if_neg (by simp [hm]), hs]
  | cons e0 rest ih =>
    obtain ⟨k, o⟩ := e0
    simp only [List.cons_append, _map_keys_to_codes]
    by_cases hmk : c.macro_check o.1 = true
    · rw [if_pos hmk, if_pos hmk]
      exact ih
    · rw [if_neg hmk, if_neg hmk]
      cases hsk : c.symbol_get o.1 with
      | none => simpa using ih
      | some tck => simp [ih]

lemma map_keys_unknown_logged (c : Collaborators)
    (m1 m2 : List (ChordKey × Output)) (key : ChordKey) (output : Output)
    (hm : c.macro_check output.1 = false)
    (hs : c.symbol_get output.1 = Option.none) :
    LogEntry.errorUnknownSymbol output.1 ∈ (_map_keys_to_codes c (m1 ++ (key, output) :: m2)).2 := by
  induction m1 with
  | nil =>
    simp only [List.nil_append, _map_keys_to_codes]
    rw [if_neg (by simp [hm]), hs]
    exact List.mem_cons_self _ _
  | cons e0 rest ih =>
    obtain ⟨k, o⟩ := e0
    simp only [List.cons_append, _map_keys_to_codes]
    by_cases hmk : c.macro_check o.1 = true
    · rw [if_pos hmk]
      exact ih
    · rw [if_neg hmk]
      cases hsk : c.symbol_get o.1 with
      | none => exact List.mem_cons_of_mem _ ih
      | some tck => exact List.mem_append_right _ ih

lemma parse_macros_skip_none (c : Collaborators)
    (m1 m2 : List (ChordKey × Output)) (key : ChordKey) (output : Output)
    (hm : c.macro_check output.1 = true)
    (hc : c.compile output.1 = Option.none) :
    parse_macros_loop c (m1 ++ (key, output) :: m2) = parse_macros_loop c (m1 ++ m2) := by
  induction m1 with
  | nil =>
    simp only [List.nil_append, parse_macros_loop]
    rw [if_pos hm, hc]
  | cons e0 rest ih =>
    obtain ⟨k, o⟩ := e0
    by_cases hmk : c.macro_check o.1 = true
    · cases hck : c.compile o.1 with
      | none => simp [List.cons_append, parse_macros_loop, hmk, hck, ih]
      | some prog => simp [List.cons_append, parse_macros_loop, hmk, hck, ih]
    · simp [List.cons_append, parse_macros_loop, hmk, ih]

lemma parse_macros_no_macros_log (c : Collaborators)
    (entries : List (ChordKey × Output)) :
    LogEntry.debugNoMacrosConfigured ∈ (_parse_macros c entries).2
      ↔ (_parse_macros c entries).1 = [] := by
  simp only [_parse_macros]
  by_cases h : (parse_macros_loop c entries).length = 0
  · simp [h, List.length_eq_zero.mp h]
  · simp only [h, if_false]
    simp [List.length_eq_zero] at h
    simp [h]

lemma is_mapped_some (ctx : Context)
    (mt : List (ChordKey × (MacroProgram × String)))
    (kt : List (ChordKey × (Int × String)))
    (hm : ctx.macros = Option.some mt) (hk : ctx.key_to_code = Option.some kt)
    (key : ChordKey) :
    ctx.is_mapped key = Except.ok (is_mapped_tables mt kt key) := by
  simp only [Context.is_mapped, hm, hk, is_mapped_tables]
  cases h : table_contains mt key
  · simp [h]
  · simp [h]

lemma is_mapped_tables_built_iff (c : Collaborators)
    (entries : List (ChordKey × Output)) (key : ChordKey) :
    is_mapped_tables (_parse_macros c entries).1 (_map_keys_to_codes c entries).1 key = true
      ↔ ∃ e ∈ entries, resolves c e.2 = true ∧ key ∈ get_permutations e.1 := by
  rw [is_mapped_tables, Bool.or_eq_true, _parse_macros_fst,
    parse_macros_loop_contains, map_keys_contains]
  constructor
  · rintro (⟨e, he, hc1, hc2, hk⟩ | ⟨e, he, hc1, hc2, hk⟩)
    · exact ⟨e, he, by simp [resolves, hc1, hc2], hk⟩
    · exact ⟨e, he, by simp [resolves, hc1, hc2], hk⟩
  · rintro ⟨e, he, hr, hk⟩
    by_cases hc : c.macro_check e.2.1 = true
    · exact Or.inl ⟨e, he, hc, by simpa [resolves, hc] using hr, hk⟩
    · refine Or.inr ⟨e, he, by simpa using hc, ?_, hk⟩
      simpa [resolves, hc] using hr

/- Claim theorems. -/

/-- C1 (amended): on tables built by `_parse_macros` and
`_map_keys_to_codes`, `is_mapped` returns true exactly for the chords that
are a permutation of some configured chord whose output resolves (a macro
output that compiles, a direct output whose symbol is known); in
particular it returns true for every permutation of such a configured
chord, and false for every other chord. -/
theorem C1_is_mapped_characterization (c : Collaborators) (m : Mapping) (ctx : Context)
    (hm : ctx.macros = Option.some (_parse_macros c m.entries).1)
    (hk : ctx.key_to_code = Option.some (_map_keys_to_codes c m.entries).1)
    (key : ChordKey) :
    (ctx.is_mapped key = Except.ok true
      ↔ ∃ e ∈ m.entries, resolves c e.2 = true ∧ key ∈ get_permutations e.1)
    ∧ (∀ e ∈ m.entries, resolves c e.2 = true →
        ∀ p ∈ get_permutations e.1, ctx.is_mapped p = Except.ok true) := by
  have base : ∀ k : ChordKey, ctx.is_mapped k = Except.ok true
      ↔ is_mapped_tables (_parse_macros c m.entries).1 (_map_keys_to_codes c m.entries).1 k
          = true := by
    intro k
    rw [is_mapped_some ctx _ _ hm hk k]
    simp
  constructor
  · rw [base key, is_mapped_tables_built_iff]
  · intro e he hr p hp
    rw [base p, is_mapped_tables_built_iff]
    exact ⟨e, he, hr, hp⟩

/-- C1 counterexample: in `mC1`, the chord of the first entry is present in
the Mapping yet `is_mapped` returns false on it, because its output symbol
"qqq" does not resolve; and `is_mapped` returns true on a reordering of the
second entry's chord even though that reordering is not itself a chord
present in the Mapping. -/
theorem C1_counterexample :
    (([((1 : Int), 30, 1)] : ChordKey) ∈ mC1.entries.map Prod.fst
      ∧ ctxC1.is_mapped [(1, 30, 1)] = Except.ok false)
    ∧ (ctxC1.is_mapped [(1, 32, 1), (1, 31, 1), (1, 33, 1)] = Except.ok true
      ∧ (mC1.entries.map Prod.fst).contains [(1, 32, 1), (1, 31, 1), (1, 33, 1)] = false) := by
  decide

/-- C1 witness: the resolvable three-key entry of `mC1` makes `is_mapped`
true on a permutation of its chord. -/
theorem C1_witness :
    ctxC1.is_mapped [(1, 31, 1), (1, 32, 1), (1, 33, 1)] = Except.ok true :=
  (C1_is_mapped_characterization c0 mC1 ctxC1 rfl rfl
      [(1, 31, 1), (1, 32, 1), (1, 33, 1)]).2
    ([(1, 31, 1), (1, 32, 1), (1, 33, 1)], ("a", "keyboard")) (by decide) (by decide)
    [(1, 31, 1), (1, 32, 1), (1, 33, 1)] (by decide)

/-- C2: for every non-empty chord of length n, the Combination Expander
produces exactly (n-1)! permutations (exactly 1 when n = 1, since 0! = 1),
and the produced list consists exactly of the reorderings of the first n-1
triples, each with the trigger triple kept in the last position. -/
theorem C2_get_permutations_spec (keys : ChordKey) (h : keys ≠ []) :
    (get_permutations keys).length = Nat.factorial (keys.length - 1)
    ∧ (∀ p, p ∈ get_permutations keys
        ↔ ∃ q, q.Perm keys.dropLast ∧ p = q ++ [keys.getLast h]) :=
  ⟨length_get_permutations keys h, fun p => mem_get_permutations keys h p⟩

/-- C2 witness: the three-key chord `chord3` has 2! = 2 permutations. -/
theorem C2_witness :
    chord3 ≠ [] ∧ (get_permutations chord3).length = Nat.factorial (chord3.length - 1) :=
  ⟨by decide, (C2_get_permutations_spec chord3 (by decide)).1⟩

/-- C3: evaluation of `update_callbacks` at a handlers dict in which the
physical key (1, 30) appears both as a press trigger (value 1, handler 7)
and as a release trigger (value -1, handler 8).  The second iteration of
the loop resets `callbacks[(1, 30)] = []`, so the resulting list holds only
the last key's callbacks `[notify 8]` — handler 7's callback is lost,
contradicting the claimed grouping of every handler sharing the dispatch
key. -/
theorem C3_update_callbacks_at_failing_input :
    update_callbacks handlersC3 = [((1, 30), [8])]
    ∧ dict_get (update_callbacks handlersC3) (1, 30) = Option.some [8] := by
  decide

/-- C4: `Context.__init__` never assigns the attributes `macros` and
`key_to_code`, so on every constructed Context, `is_mapped` and
`writes_keys` raise AttributeError instead of returning a boolean. -/
theorem C4_tables_never_assigned
    (parse_mapping : Mapping → List (Triple × List Handler)) (m : Mapping)
    (key : ChordKey) :
    (Context.init parse_mapping m).macros = Option.none
    ∧ (Context.init parse_mapping m).key_to_code = Option.none
    ∧ (Context.init parse_mapping m).is_mapped key = Except.error PyError.attributeError
    ∧ (Context.init parse_mapping m).writes_keys = Except.error PyError.attributeError :=
  ⟨rfl, rfl, rfl, rfl⟩

/-- C5 (amended): each mapping entry contributes its permutations to
exactly one table, determined once by the syntactic macro check; hence the
macro table and the direct table share no chord provided no macro-classified
entry has a permutation in common with a non-macro entry.  (Two distinct
entries whose chords are reorderings of each other, one a macro and one
direct, do produce a chord present in both tables.) -/
theorem C5_tables_disjoint_without_cross_classification (c : Collaborators)
    (entries : List (ChordKey × Output))
    (h : ∀ e1 ∈ entries, ∀ e2 ∈ entries, c.macro_check e1.2.1 = true →
        c.macro_check e2.2.1 = false →
        ∀ k, k ∈ get_permutations e1.1 → k ∉ get_permutations e2.1)
    (key : ChordKey) :
    ¬(table_contains (_parse_macros c entries).1 key = true
      ∧ table_contains (_map_keys_to_codes c entries).1 key = true) := by
  rintro ⟨h1, h2⟩
  rw [_parse_macros_fst, parse_macros_loop_contains] at h1
  rw [map_keys_contains] at h2
  obtain ⟨e1, he1, hc1, _, hk1⟩ := h1
  obtain ⟨e2, he2, hc2, _, hk2⟩ := h2
  exact h e1 he1 e2 he2 hc1 hc2 key hk1 hk2

/-- C5 counterexample: in `mC5` a macro entry and a direct entry have
permutation-equivalent chords, and the chord of the first entry ends up in
both the macro table and the direct table simultaneously. -/
theorem C5_counterexample :
    table_contains (_parse_macros c0 mC5.entries).1 [(1, 2, 1), (1, 3, 1), (1, 4, 1)] = true
    ∧ table_contains (_map_keys_to_codes c0 mC5.entries).1
        [(1, 2, 1), (1, 3, 1), (1, 4, 1)] = true := by
  decide

/-- C5 witness: a mapping with one direct entry has disjoint tables. -/
theorem C5_witness :
    ¬(table_contains (_parse_macros c0 mDirect.entries).1 [(1, 30, 1)] = true
      ∧ table_contains (_map_keys_to_codes c0 mDirect.entries).1 [(1, 30, 1)] = true) :=
  C5_tables_disjoint_without_cross_classification c0 mDirect.entries
    (by
      intro e1 he1 e2 he2 hc1 hc2 k hk1
      have he : e1 = ([(1, 30, 1)], ("a", "keyboard")) := by
        simpa [mDirect] using he1
      rw [he] at hc1
      exact absurd hc1 (by decide))
    [(1, 30, 1)]

/-- C6: `writes_keys` is true iff both the macro table and the direct table
are non-empty (a conjunction, not a disjunction); a session with direct
mappings but zero macros, or macros but zero direct mappings, reports
false. -/
theorem C6_writes_keys_requires_both (ctx : Context)
    (mt : List (ChordKey × (MacroProgram × String)))
    (kt : List (ChordKey × (Int × String)))
    (hm : ctx.macros = Option.some mt) (hk : ctx.key_to_code = Option.some kt) :
    (ctx.writes_keys = Except.ok true ↔ (mt ≠ [] ∧ kt ≠ []))
    ∧ (mt = [] → ctx.writes_keys = Except.ok false)
    ∧ (kt = [] → ctx.writes_keys = Except.ok false) := by
  rcases mt with _ | ⟨e, mt0⟩
  · simp [Context.writes_keys, hm, hk]
  · rcases kt with _ | ⟨f, kt0⟩
    · simp [Context.writes_keys, hm, hk]
    · simp [Context.writes_keys, hm, hk]

/-- C6 witness: the session `ctxC6` has one direct mapping and zero macros
and reports false. -/
theorem C6_witness : ctxC6.writes_keys = Except.ok false :=
  ((C6_writes_keys_requires_both ctxC6 [] [([(1, 30, 1)], (30, "keyboard"))]
      rfl rfl).2).1 rfl

/-- C7: over every combination of the two cached purpose fields,
`maps_joystick` is false iff both purposes are none, `joystick_as_mouse` is
true iff at least one purpose is mouse or wheel, `joystick_as_dpad` is true
iff at least one purpose is buttons; and each of the three is a pure
function of the two purpose fields alone (contexts agreeing on the two
fields agree on all three predicates). -/
theorem C7_joystick_purpose_predicates (ctx ctx2 : Context)
    (hl : ctx.left_purpose = ctx2.left_purpose)
    (hr : ctx.right_purpose = ctx2.right_purpose) :
    (ctx.maps_joystick = false
        ↔ (ctx.left_purpose = Purpose.none ∧ ctx.right_purpose = Purpose.none))
    ∧ (ctx.joystick_as_mouse = true
        ↔ (ctx.left_purpose = Purpose.mouse ∨ ctx.left_purpose = Purpose.wheel
            ∨ ctx.right_purpose = Purpose.mouse ∨ ctx.right_purpose = Purpose.wheel))
    ∧ (ctx.joystick_as_dpad = true
        ↔ (ctx.left_purpose = Purpose.buttons ∨ ctx.right_purpose = Purpose.buttons))
    ∧ ctx.maps_joystick = ctx2.maps_joystick
    ∧ ctx.joystick_as_mouse = ctx2.joystick_as_mouse
    ∧ ctx.joystick_as_dpad = ctx2.joystick_as_dpad := by
  refine ⟨?_, ?_, ?_, ?_, ?_, ?_⟩ <;>
    simp only [Context.maps_joystick, Context.joystick_as_mouse,
      Context.joystick_as_dpad, ← hl, ← hr] <;>
    cases ctx.left_purpose <;> cases ctx.right_purpose <;> decide

/-- C7 witness: spec scenario C — left stick mouse, right stick none. -/
theorem C7_witness :
    (ctxC7.maps_joystick = false
        ↔ (ctxC7.left_purpose = Purpose.none ∧ ctxC7.right_purpose = Purpose.none))
    ∧ ctxC7.maps_joystick = true ∧ ctxC7.joystick_as_mouse = true
    ∧ ctxC7.joystick_as_dpad = false :=
  ⟨(C7_joystick_purpose_predicates ctxC7 ctxC7 rfl rfl).1, by decide, by decide, by decide⟩

/-- C8: a direct entry whose output symbol is unknown to the system symbol
table is logged and skipped: the built direct table is exactly the table of
the mapping without that entry (so no permutation of its chord is
inserted and all other entries are still processed), and the unknown-symbol
error is in the log. -/
theorem C8_unknown_symbol_logged_and_skipped (c : Collaborators)
    (m1 m2 : List (ChordKey × Output)) (key : ChordKey) (output : Output)
    (hm : c.macro_check output.1 = false)
    (hs : c.symbol_get output.1 = Option.none) :
    (_map_keys_to_codes c (m1 ++ (key, output) :: m2)).1
      = (_map_keys_to_codes c (m1 ++ m2)).1
    ∧ LogEntry.errorUnknownSymbol output.1
        ∈ (_map_keys_to_codes c (m1 ++ (key, output) :: m2)).2 :=
  ⟨map_keys_skip_unknown c m1 m2 key output hm hs,
   map_keys_unknown_logged c m1 m2 key output hm hs⟩

/-- C8 witness: the entry with unknown symbol "zzz" is skipped while the
entry with symbol "a" still resolves. -/
theorem C8_witness :
    (_map_keys_to_codes c0 ([entryGood] ++ entryBad :: [])).1
      = (_map_keys_to_codes c0 ([entryGood] ++ [])).1
    ∧ LogEntry.errorUnknownSymbol entryBad.2.1
        ∈ (_map_keys_to_codes c0 ([entryGood] ++ entryBad :: [])).2 :=
  C8_unknown_symbol_logged_and_skipped c0 [entryGood] [] entryBad.1 entryBad.2
    (by decide) (by decide)

/-- C9 (amended): the value sanity check inspects the trigger (last)
triple's value of each permutation, `permutation.keys[-1][-1]`; when that
value lies outside {-1, 1} an error is logged but the entry is still
inserted with its resolved output, and the built table is identical to the
table built without the check. -/
theorem C9_trigger_value_check_lenient (c : Collaborators)
    (entries : List (ChordKey × Output)) (e : ChordKey × Output) (he : e ∈ entries)
    (hm : c.macro_check e.2.1 = false) (tc : Int)
    (hs : c.symbol_get e.2.1 = Option.some tc)
    (p : ChordKey) (hp : p ∈ get_permutations e.1) (hv : last_value_ok p = false) :
    LogEntry.errorUnexpectedValue p ∈ (_map_keys_to_codes c entries).2
    ∧ (p, (tc, e.2.2)) ∈ (_map_keys_to_codes c entries).1
    ∧ (_map_keys_to_codes c entries).1 = map_keys_to_codes_nocheck c entries :=
  ⟨map_keys_value_error_logged c entries e he hm tc hs p hp hv,
   map_keys_mem_insert c entries e he hm tc hs p hp,
   map_keys_fst_eq_nocheck c entries⟩

/-- C9 counterexample: in `entryC9cx` the non-trigger value 5 lies outside
{-1, 1}, yet no error at all is logged (the check looks at the trigger
value, which is 1); the entry is inserted. -/
theorem C9_counterexample :
    ((5 : Int) = -1 ∨ (5 : Int) = 1) = False
    ∧ (_map_keys_to_codes c0 [entryC9cx]).2 = []
    ∧ table_contains (_map_keys_to_codes c0 [entryC9cx]).1
        [(1, 30, 5), (1, 31, 1)] = true := by
  refine ⟨by simp, by decide, by decide⟩

/-- C9 witness: `entryC9w` has trigger value 0 outside {-1, 1}: the error
is logged, the entry is inserted anyway, and the table equals the
check-free table. -/
theorem C9_witness :
    LogEntry.errorUnexpectedValue [(1, 31, 1), (1, 30, 0)]
        ∈ (_map_keys_to_codes c0 [entryC9w]).2
    ∧ ([((1 : Int), 31, 1), (1, 30, 0)], ((30 : Int), entryC9w.2.2))
        ∈ (_map_keys_to_codes c0 [entryC9w]).1
    ∧ (_map_keys_to_codes c0 [entryC9w]).1 = map_keys_to_codes_nocheck c0 [entryC9w] :=
  C9_trigger_value_check_lenient c0 [entryC9w] entryC9w (by decide) (by decide) 30
    (by decide) [(1, 31, 1), (1, 30, 0)] (by decide) (by decide)

/-- C10: a macro-classified entry whose compilation yields no program is
omitted from the macro table without affecting the rest of the build (the
table equals the table of the mapping without that entry), and the
"No macros configured" diagnostic is present exactly when the finished
table is empty and is a debug-level entry, not an error. -/
theorem C10_empty_macro_skipped_and_diagnostic (c : Collaborators)
    (m1 m2 : List (ChordKey × Output)) (key : ChordKey) (output : Output)
    (hm : c.macro_check output.1 = true)
    (hc : c.compile output.1 = Option.none) :
    (_parse_macros c (m1 ++ (key, output) :: m2)).1 = (_parse_macros c (m1 ++ m2)).1
    ∧ (LogEntry.debugNoMacrosConfigured ∈ (_parse_macros c (m1 ++ (key, output) :: m2)).2
        ↔ (_parse_macros c (m1 ++ (key, output) :: m2)).1 = [])
    ∧ LogEntry.is_error LogEntry.debugNoMacrosConfigured = false := by
  refine ⟨?_, parse_macros_no_macros_log c _, rfl⟩
  rw [_parse_macros_fst, _parse_macros_fst]
  exact parse_macros_skip_none c m1 m2 key output hm hc

/-- C10 witness: the empty-bodied macro entry `entryC10` is omitted from
the macro table and the session-level diagnostic is debug-level. -/
theorem C10_witness :
    (_parse_macros c1 ([] ++ entryC10 :: [])).1 = (_parse_macros c1 ([] ++ [])).1
    ∧ (LogEntry.debugNoMacrosConfigured ∈ (_parse_macros c1 ([] ++ entryC10 :: [])).2
        ↔ (_parse_macros c1 ([] ++ entryC10 :: [])).1 = [])
    ∧ LogEntry.is_error LogEntry.debugNoMacrosConfigured = false :=
  C10_empty_macro_skipped_and_diagnostic c1 [] [] entryC10.1 entryC10.2
    (by decide) (by decide)
